import Mathlib

/-!
Verification of the user-management web application's session gate,
connection cache and user CRUD handlers, shallowly embedded from the
TypeScript source (Next.js route handlers, the middleware `proxy`, the
mongoose connection utility and the `User` model schema).
-/

set_option maxRecDepth 4000

namespace UserMgmt

/-! ### Cookies and the request model

A browser cookie jar is a list of name/value pairs.  `cookiesGet` embeds
Next.js `request.cookies.get(name)` / `cookieStore.get(name)`, which
return a `RequestCookie` object (name and value) when the cookie is
present and `undefined` otherwise.  The handlers test the truthiness of
that OBJECT, so presence is `Option.isSome` of the value, regardless of
whether the value is the empty string. -/

abbrev Jar := List (String × String)

def cookiesGet (jar : Jar) (name : String) : Option String :=
  (jar.find? (fun c => c.fst == name)).map (fun c => c.snd)

/-- The SameSite attribute of a Set-Cookie header. -/
inductive SameSite where
  | lax | strict | none
deriving Repr, DecidableEq

/-- A Set-Cookie header as produced by `response.cookies.set` in the
source: name, value, and the attributes the handlers set.  `maxAge` is
in seconds; `expiresAt` is an absolute epoch time in milliseconds
(`new Date(0)` is `some 0`). -/
structure SetCookie where
  name : String
  value : String
  path : String
  httpOnly : Bool
  secure : Bool
  sameSite : SameSite
  maxAge : Option Nat
  expiresAt : Option Nat
deriving Repr, DecidableEq

/-- Embeds the issuance in `POST /api/users` (src/app/api/users/route.ts
lines 127-134): `res.cookies.set("registered", "true", \x7b httpOnly: true,
secure: process.env.NODE_ENV === "production", sameSite: "lax",
path: "/", maxAge: 60 * 60 * 24 * 7 \x7d)`. -/
def issueCookie (isProduction : Bool) : SetCookie :=
  { name := "registered"
    value := "true"
    path := "/"
    httpOnly := true
    secure := isProduction
    sameSite := SameSite.lax
    maxAge := some (60 * 60 * 24 * 7)
    expiresAt := none }

/-- Embeds the revocation in `DELETE /api/session` (src/unnamed/part_000
lines 34-37): `response.cookies.set("registered", "", \x7b path: "/",
expires: new Date(0) \x7d)`.  Attributes not passed keep the
`cookies.set` defaults (not http-only, not secure, no same-site, no
max-age). -/
def revokeCookie : SetCookie :=
  { name := "registered"
    value := ""
    path := "/"
    httpOnly := false
    secure := false
    sameSite := SameSite.none
    maxAge := none
    expiresAt := some 0 }

/-- Whether a Set-Cookie header is already expired at time `now`
(epoch milliseconds): an absolute expiry at or before `now`, or a
non-positive max-age.  A browser receiving such a header drops the
cookie instead of storing it. -/
def SetCookie.expiredAt (c : SetCookie) (now : Nat) : Bool :=
  (match c.expiresAt with
   | some t => t ≤ now
   | none => false)
  || (match c.maxAge with
      | some m => m = 0
      | none => false)

/-- The browser applying one Set-Cookie header to a jar: remove any
existing cookie of that name, then store the new value unless the
header is already expired at `now`. -/
def applySetCookie (jar : Jar) (c : SetCookie) (now : Nat) : Jar :=
  let rest := jar.filter (fun e => e.fst ≠ c.name)
  if c.expiredAt now then rest else (c.name, c.value) :: rest

/-! ### The connection cache (`connectDB`, src/unnamed/part_012)

The module-level mutable `cached = \x7b conn, promise \x7d` is the state;
connection handles and pending attempts are numbered.  `outcome` is the
environment's verdict on each attempt (the result the promise settles
with); `fresh` is the identity a newly initiated attempt would get, so
"the call initiated a new attempt" and "the call awaited attempt `a`"
are observable in the step record. -/

/-- The module-level cache of src/unnamed/part_012 line 25:
`conn` is the resolved handle, `promise` the in-progress attempt. -/
structure Cache where
  conn : Option Nat
  promise : Option Nat
deriving Repr, DecidableEq

/-- One call to `connectDB`: the value returned (or error thrown), the
cache state after the call, the attempt newly initiated by this call
(if any), and the attempt this call awaited (if any). -/
structure ConnectStep where
  result : Except String Nat
  state : Cache
  started : Option Nat
  awaited : Option Nat
deriving Repr

/-- Embeds `connectDB` (src/unnamed/part_012 lines 27-51): return the
cached connection if established; otherwise reuse the cached promise or
initiate a new attempt and cache it; await it; on success cache and
return the handle, on failure clear the promise and rethrow. -/
def connectDB (s : Cache) (fresh : Nat) (outcome : Nat → Except String Nat) :
    ConnectStep :=
  match s.conn with
  | some h => { result := Except.ok h, state := s, started := none, awaited := none }
  | none =>
    let a := s.promise.getD fresh
    let started := if s.promise.isSome then none else some fresh
    match outcome a with
    | Except.ok h =>
        { result := Except.ok h
          state := { conn := some h, promise := some a }
          started := started
          awaited := some a }
    | Except.error e =>
        { result := Except.error e
          state := { conn := none, promise := none }
          started := started
          awaited := some a }

/-- Whether a call returned normally (did not throw). -/
def resultOk (r : Except String Nat) : Bool :=
  match r with
  | Except.ok _ => true
  | Except.error _ => false

/-- Aggregate view of a sequential run of `connectDB` calls: final
cache state, number of attempts initiated, number of calls that
threw. -/
structure RunStats where
  state : Cache
  started : Nat
  failed : Nat
deriving Repr, DecidableEq

/-- Run `n` successive `connectDB` calls from state `s`, numbering any
newly initiated attempt with the next fresh id. -/
def runConnect (outcome : Nat → Except String Nat) :
    Cache → Nat → Nat → RunStats
  | s, _, 0 => { state := s, started := 0, failed := 0 }
  | s, fresh, n + 1 =>
    let st := connectDB s fresh outcome
    let rest := runConnect outcome st.state
      (if st.started.isSome then fresh + 1 else fresh) n
    { state := rest.state
      started := (if st.started.isSome then 1 else 0) + rest.started
      failed := (if resultOk st.result then 0 else 1) + rest.failed }

/-! ### The gate (middleware `proxy`) and the session check -/

/-- The observable outcome of the middleware: a redirect to a URL, or
the pass-through `NextResponse.next()` that leaves the request
unmodified. -/
inductive GateResult where
  | redirect (url : String)
  | next
deriving Repr, DecidableEq

/-- An incoming request as seen by the middleware: its URL path and its
cookie jar. -/
structure GateRequest where
  pathname : String
  cookies : Jar
deriving Repr, DecidableEq

/-- Embeds `proxy` (src/app/proxy.ts lines 5-17): read the
`registered` cookie, test whether the path starts with `/dashboard`,
redirect to `/register` when the path matches and the cookie is
absent, otherwise pass through. -/
def proxy (request : GateRequest) : GateResult :=
  let isRegistered := cookiesGet request.cookies "registered"
  let isDashboardPage := request.pathname.startsWith "/dashboard"
  if isDashboardPage && isRegistered.isNone then
    GateResult.redirect "/register"
  else
    GateResult.next

/-- A session-check response: HTTP status and the `authenticated`
flag of the JSON body. -/
structure SessionResult where
  status : Nat
  authenticated : Bool
deriving Repr, DecidableEq

/-- Embeds `GET /api/session` (src/unnamed/part_000 lines 9-18):
401/`false` when the `registered` cookie is absent, 200/`true`
otherwise. -/
def sessionGET (jar : Jar) : SessionResult :=
  let isRegistered := cookiesGet jar "registered"
  if isRegistered.isNone then
    { status := 401, authenticated := false }
  else
    { status := 200, authenticated := true }

/-! ### The record store and the user CRUD handlers

A `User` document (src/unnamed/part_010) with a numeric id standing
for the Mongo ObjectId and epoch timestamps.  The mongoose schema
declares `lowercase: true, trim: true` on `email` — these are setters
applied whenever the path is assigned, so `schemaEmail` is applied on
create and on save.  The schema also declares `unique: true` on
`email` (a MongoDB index), so a save that would duplicate another
document's email throws and is caught by the handler. -/

structure UserRec where
  id : Nat
  fullName : String
  email : String
  phone : String
  imageUrl : String
  imagePublicId : String
  createdAt : Nat
deriving Repr, DecidableEq

abbrev Store := List UserRec

/-- Embeds `String.prototype.toLowerCase()` over the character list (the
source's emails are ASCII; `Char.toLower` matches on that range). -/
def lowerStr (s : String) : String := String.mk (s.data.map Char.toLower)

def trimChars (cs : List Char) : List Char :=
  ((cs.dropWhile Char.isWhitespace).reverse.dropWhile Char.isWhitespace).reverse

/-- Embeds `String.prototype.trim()` over the character list. -/
def trimStr (s : String) : String := String.mk (trimChars s.data)

/-- Embeds `User.findById`: the first document with the id. -/
def findById : Store → Nat → Option UserRec
  | [], _ => none
  | u :: us, id => if u.id == id then some u else findById us id

/-- Embeds `User.findOne(\x7b email \x7d)`: the first document with the email. -/
def findOneByEmail : Store → String → Option UserRec
  | [], _ => none
  | u :: us, e => if u.email == e then some u else findOneByEmail us e

/-- The mongoose schema setters on the `email` path
(src/unnamed/part_010 lines 30-36): `trim: true` and
`lowercase: true`. -/
def schemaEmail (e : String) : String := lowerStr (trimStr e)

/-- Embeds the `User.findByIdAndUpdate` / `user.save()` write-back: every
document with the given id is replaced. -/
def updateById : Store → Nat → UserRec → Store
  | [], _, _ => []
  | v :: vs, id, u => (if v.id == id then u else v) :: updateById vs id u

/-- zod `z.string().min(2)` on the full name
(src/unnamed/part_012 line 61). -/
def validFullName (s : String) : Bool := 2 ≤ s.length

/-- zod `z.string().regex(^\d\x7b10\x7d$)` on the phone
(src/unnamed/part_012 line 68). -/
def validPhone (s : String) : Bool := s.length == 10 && s.data.all Char.isDigit

/-- Models zod `z.string().email()` (src/unnamed/part_012 line 64),
whose regex lives in the zod library, not this repository: one `@`,
non-empty local part, non-empty domain containing a dot, no spaces.
No claim below depends on this predicate's exact boundary — every
verdict holds for any email-format check. -/
def validEmail (s : String) : Bool :=
  let cs := s.data
  let lp := cs.takeWhile (fun c => c ≠ '@')
  match cs.dropWhile (fun c => c ≠ '@') with
  | '@' :: domain =>
    !lp.isEmpty && !domain.isEmpty && !domain.contains '@' &&
      domain.contains '.' && !cs.contains ' '
  | _ => false

/-- Outcome of a mutating or fetching handler: HTTP status, the store
afterwards, and whether `connectDB` was reached. -/
structure HandlerResult where
  status : Nat
  store : Store
  dbConnected : Bool
deriving Repr, DecidableEq

/-- Outcome of `GET /api/users`: also carries the JSON body (the
sorted user list). -/
structure GetListResult where
  status : Nat
  store : Store
  dbConnected : Bool
  body : List UserRec
deriving Repr, DecidableEq

/-- Outcome of `GET /api/users/[id]`: also carries the fetched user. -/
structure GetOneResult where
  status : Nat
  store : Store
  dbConnected : Bool
  user : Option UserRec
deriving Repr, DecidableEq

/-- Outcome of `POST /api/users`: also records whether an image upload
was attempted and the Set-Cookie header of the response. -/
structure PostResult where
  status : Nat
  store : Store
  dbConnected : Bool
  uploadAttempted : Bool
  setCookie : Option SetCookie
deriving Repr, DecidableEq

/-- The multipart registration form: `formData.get` yields the field
when present.  A missing or non-Blob `image` is `none`. -/
structure RegisterForm where
  fullName : Option String
  email : Option String
  phone : Option String
  image : Option String
deriving Repr, DecidableEq

/-- Ordering `createdAt: -1` used by `User.find().sort(...)`:
insertion sort, newest first. -/
def insertDesc (u : UserRec) : List UserRec → List UserRec
  | [] => [u]
  | v :: vs => if v.createdAt ≤ u.createdAt then u :: v :: vs else v :: insertDesc u vs

def sortByCreatedDesc : Store → List UserRec
  | [] => []
  | u :: us => insertDesc u (sortByCreatedDesc us)

/-- Embeds `POST /api/users` (src/app/api/users/route.ts lines
52-151): trim the fields and lowercase the email; 400 when a field is
missing/empty or fails the zod schema (before `connectDB`); then
connect, reject a duplicate email with 400 before any upload; then
upload (500 on failure); then create the record and answer 201 with
the issued cookie.  `upload` is the Cloudinary `upload_stream` oracle
returning `(secure_url, public_id)`; `freshId`/`now` are the id and
timestamp Mongo assigns. -/
def usersPOST (store : Store) (form : RegisterForm)
    (upload : String → Except String (String × String))
    (freshId now : Nat) (isProduction : Bool) : PostResult :=
  let fullName := trimStr (form.fullName.getD "")
  let email := lowerStr (trimStr (form.email.getD ""))
  let phone := trimStr (form.phone.getD "")
  if fullName == "" || email == "" || phone == "" || form.image.isNone then
    { status := 400, store := store, dbConnected := false,
      uploadAttempted := false, setCookie := none }
  else if !(validFullName fullName && validEmail email && validPhone phone) then
    { status := 400, store := store, dbConnected := false,
      uploadAttempted := false, setCookie := none }
  else
    match findOneByEmail store email with
    | some _ =>
      { status := 400, store := store, dbConnected := true,
        uploadAttempted := false, setCookie := none }
    | none =>
      match upload (form.image.getD "") with
      | Except.error _ =>
        { status := 500, store := store, dbConnected := true,
          uploadAttempted := true, setCookie := none }
      | Except.ok (url, pid) =>
        let created : UserRec :=
          { id := freshId, fullName := fullName, email := schemaEmail email,
            phone := phone, imageUrl := url, imagePublicId := pid,
            createdAt := now }
        { status := 201, store := created :: store, dbConnected := true,
          uploadAttempted := true, setCookie := some (issueCookie isProduction) }

/-- Embeds `GET /api/users` (src/app/api/users/route.ts lines 17-41):
401 before `connectDB` when the `registered` cookie is absent,
otherwise the stored users sorted newest first. -/
def usersGET (store : Store) (jar : Jar) : GetListResult :=
  if (cookiesGet jar "registered").isNone then
    { status := 401, store := store, dbConnected := false, body := [] }
  else
    { status := 200, store := store, dbConnected := true,
      body := sortByCreatedDesc store }

/-- Embeds `GET /api/users/[id]` (src/unnamed/part_001 lines 79-108):
401 before `connectDB` without the cookie; 404 when the id is
unknown; otherwise the user. -/
def userGETById (store : Store) (jar : Jar) (id : Nat) : GetOneResult :=
  if (cookiesGet jar "registered").isNone then
    { status := 401, store := store, dbConnected := false, user := none }
  else
    match findById store id with
    | none => { status := 404, store := store, dbConnected := true, user := none }
    | some u => { status := 200, store := store, dbConnected := true, user := some u }

/-- Embeds the form-data `PUT /api/users/[id]` (src/unnamed/part_001
lines 115-170): 401 before `connectDB` without the cookie; 404 for an
unknown id; when an image is supplied, destroy the old one (if any)
and upload the new one, any throw landing in the catch as 400; then
assign `fullName`, `email`, `phone` verbatim — no `registerSchema`
parse — and `user.save()`, whose schema setters normalize the email
and whose unique index throws (caught as 400) if another document
holds the same normalized email. -/
def usersPUTForm (store : Store) (jar : Jar) (id : Nat)
    (fullName email phone : String) (image : Option String)
    (upload : String → Except String (String × String))
    (destroy : String → Except String Unit) : HandlerResult :=
  if (cookiesGet jar "registered").isNone then
    { status := 401, store := store, dbConnected := false }
  else
    match findById store id with
    | none => { status := 404, store := store, dbConnected := true }
    | some u =>
      let imgStep : Except String (String × String) :=
        match image with
        | none => Except.ok (u.imageUrl, u.imagePublicId)
        | some img =>
          match (if u.imagePublicId != "" then destroy u.imagePublicId
                 else Except.ok ()) with
          | Except.error e => Except.error e
          | Except.ok _ => upload img
      match imgStep with
      | Except.error _ => { status := 400, store := store, dbConnected := true }
      | Except.ok (url, pid) =>
        if store.any (fun v => v.id != id && v.email == schemaEmail email) then
          { status := 400, store := store, dbConnected := true }
        else
          let u2 : UserRec :=
            { u with
              fullName := fullName
              email := schemaEmail email
              phone := phone
              imageUrl := url
              imagePublicId := pid }
          { status := 200, store := updateById store id u2, dbConnected := true }

/-- Embeds `DELETE /api/users/[id]` (src/unnamed/part_001 lines
177-213; lines 41-66 are the same flow without the cookie check): 401
before `connectDB` without the cookie; 404 for an unknown id; then
`await cloudinary.uploader.destroy(...)` when the record has an image
handle — a throw lands in the catch as 500 BEFORE
`User.findByIdAndDelete` runs — and only then is the record removed. -/
def usersDELETEById (store : Store) (jar : Jar) (id : Nat)
    (destroy : String → Except String Unit) : HandlerResult :=
  if (cookiesGet jar "registered").isNone then
    { status := 401, store := store, dbConnected := false }
  else
    match findById store id with
    | none => { status := 404, store := store, dbConnected := true }
    | some u =>
      match (if u.imagePublicId != "" then destroy u.imagePublicId
             else Except.ok ()) with
      | Except.error _ => { status := 500, store := store, dbConnected := true }
      | Except.ok _ =>
        { status := 200, store := store.filter (fun v => v.id != id),
          dbConnected := true }

/-- A concrete stored user for instantiating theorems. -/
def annUser : UserRec :=
  { id := 1
    fullName := "Ann"
    email := "ann@example.com"
    phone := "0123456789"
    imageUrl := "http://img/a"
    imagePublicId := "pid1"
    createdAt := 5 }

end UserMgmt

namespace UserMgmt

/-- Claim C1: a request whose path starts with `/dashboard` and whose
jar has no `registered` cookie is answered with a redirect to
`/register`; every other request (cookie present, or non-matching
path) gets the pass-through response. -/
theorem proxy_gate_correct (request : GateRequest) :
    (proxy request = GateResult.redirect "/register" ↔
      (request.pathname.startsWith "/dashboard" = true ∧
        cookiesGet request.cookies "registered" = none)) ∧
    (proxy request = GateResult.next ↔
      ¬ (request.pathname.startsWith "/dashboard" = true ∧
        cookiesGet request.cookies "registered" = none)) := by
  unfold proxy
  rcases hpath : request.pathname.startsWith "/dashboard" <;>
    rcases hcook : cookiesGet request.cookies "registered" with _ | v <;>
      simp [hpath, hcook, Option.isNone]

/-- Claim C4: issuance sets a `registered` cookie valued `"true"`,
path `/`, http-only, sameSite lax, secure exactly in production, with
a max-age of exactly 7 days; revocation overwrites the same cookie
with the empty string and an expiry in the past (epoch 0, already
expired at every time). -/
theorem registered_cookie_lifecycle (isProduction : Bool) (now : Nat) :
    (issueCookie isProduction).name = "registered" ∧
    (issueCookie isProduction).value = "true" ∧
    (issueCookie isProduction).path = "/" ∧
    (issueCookie isProduction).httpOnly = true ∧
    (issueCookie isProduction).sameSite = SameSite.lax ∧
    (issueCookie isProduction).secure = isProduction ∧
    (issueCookie isProduction).maxAge = some (7 * 24 * 60 * 60) ∧
    revokeCookie.name = "registered" ∧
    revokeCookie.value = "" ∧
    revokeCookie.expiresAt = some 0 ∧
    revokeCookie.expiredAt now = true := by
  simp [issueCookie, revokeCookie, SetCookie.expiredAt]

theorem find?_filter_ne_none (jar : Jar) (n : String) :
    (jar.filter (fun e => e.fst ≠ n)).find? (fun c => c.fst == n) = none := by
  induction jar with
  | nil => simp
  | cons head tail ih =>
    by_cases h : head.fst = n
    · simp [List.filter, h, ih]
    · simp [List.filter, List.find?, h, ih]

/-- Claim C5: over the browser cookie-jar semantics (each Set-Cookie
applied in turn, dropping a cookie whose expiry has passed), issuing
the marker and then running the session check yields authenticated;
revoking and then checking yields not authenticated — from every
starting jar, at every time, in every environment. -/
theorem issue_then_check_and_revoke_then_check
    (jar : Jar) (isProduction : Bool) (now : Nat) :
    (sessionGET (applySetCookie jar (issueCookie isProduction) now)).authenticated
      = true ∧
    (sessionGET (applySetCookie jar revokeCookie now)).authenticated = false := by
  constructor
  · simp [applySetCookie, issueCookie, SetCookie.expiredAt, sessionGET,
      cookiesGet, List.find?]
  · simp [applySetCookie, revokeCookie, SetCookie.expiredAt, sessionGET,
      cookiesGet, find?_filter_ne_none]

/-- Claim C8: a request carrying a `registered` cookie whose value is
the empty string is treated as registered: the gate passes every path
through (never redirects), and the session check answers 200 /
authenticated.  Presence of the cookie, not non-emptiness of its
value, is what is tested. -/
theorem empty_cookie_value_counts_as_present (jar : Jar) (p : String)
    (h : cookiesGet jar "registered" = some "") :
    proxy { pathname := p, cookies := jar } = GateResult.next ∧
    sessionGET jar = { status := 200, authenticated := true } := by
  unfold proxy sessionGET
  simp [h]

/-- Concrete instance of `empty_cookie_value_counts_as_present`: the
jar holding only `registered=` (empty value) passes the dashboard
gate and authenticates. -/
theorem empty_cookie_value_counts_as_present_witness :
    proxy { pathname := "/dashboard/users", cookies := [("registered", "")] }
        = GateResult.next ∧
    sessionGET [("registered", "")] = { status := 200, authenticated := true } :=
  empty_cookie_value_counts_as_present [("registered", "")] "/dashboard/users" rfl

theorem runConnect_conn_some (outcome : Nat → Except String Nat)
    (h : Nat) (p : Option Nat) :
    ∀ (n fresh : Nat),
      runConnect outcome { conn := some h, promise := p } fresh n
        = { state := { conn := some h, promise := p }, started := 0, failed := 0 } := by
  intro n
  induction n with
  | zero => intro fresh; simp [runConnect]
  | succ n ih => intro fresh; simp [runConnect, connectDB, resultOk, ih]

/-- Claim C2: (a) with a resolved handle cached, a call returns that
handle, initiates nothing and leaves the state unchanged; (b) with no
handle but a cached in-progress attempt `a`, a call initiates nothing
and awaits exactly `a`; (c) in every sequential run from the empty
cache, the number of attempts initiated equals the number of failed
calls plus one if a connection was established — exactly one attempt
per generation, from process start or a failure to the next success. -/
theorem connection_cache_single_attempt :
    (∀ (s : Cache) (fresh : Nat) (outcome : Nat → Except String Nat) (h : Nat),
      s.conn = some h →
      connectDB s fresh outcome
        = { result := Except.ok h, state := s, started := none, awaited := none }) ∧
    (∀ (s : Cache) (fresh : Nat) (outcome : Nat → Except String Nat) (a : Nat),
      s.conn = none → s.promise = some a →
      (connectDB s fresh outcome).started = none ∧
      (connectDB s fresh outcome).awaited = some a) ∧
    (∀ (outcome : Nat → Except String Nat) (n fresh : Nat),
      (runConnect outcome { conn := none, promise := none } fresh n).started
        = (runConnect outcome { conn := none, promise := none } fresh n).failed
          + (if (runConnect outcome { conn := none, promise := none } fresh n).state.conn.isSome
              then 1 else 0)) := by
  refine ⟨?_, ?_, ?_⟩
  · intro s fresh outcome h hconn
    simp [connectDB, hconn]
  · intro s fresh outcome a hconn hprom
    rcases houtcome : outcome a with e | h <;>
      simp [connectDB, hconn, hprom, houtcome]
  · intro outcome n
    induction n with
    | zero => intro fresh; simp [runConnect]
    | succ n ih =>
      intro fresh
      rcases houtcome : outcome fresh with e | h
      · have hstep : connectDB { conn := none, promise := none } fresh outcome
            = { result := Except.error e, state := { conn := none, promise := none },
                started := some fresh, awaited := some fresh } := by
          simp [connectDB, houtcome]
        simp only [runConnect, hstep]
        simp [resultOk, ih (fresh + 1), Nat.add_assoc]
      · have hstep : connectDB { conn := none, promise := none } fresh outcome
            = { result := Except.ok h, state := { conn := some h, promise := some fresh },
                started := some fresh, awaited := some fresh } := by
          simp [connectDB, houtcome]
        simp only [runConnect, hstep]
        simp [resultOk, runConnect_conn_some]

/-- Concrete instance of `connection_cache_single_attempt`: a cached
handle 7 is returned as-is, and a cached in-progress attempt 3 is the
one awaited, with nothing new initiated. -/
theorem connection_cache_single_attempt_witness :
    connectDB { conn := some 7, promise := some 3 } 9 (fun _ => Except.error "down")
      = { result := Except.ok 7, state := { conn := some 7, promise := some 3 },
          started := none, awaited := none } ∧
    (connectDB { conn := none, promise := some 3 } 9 (fun a => Except.ok (a + 40))).started
      = none ∧
    (connectDB { conn := none, promise := some 3 } 9 (fun a => Except.ok (a + 40))).awaited
      = some 3 :=
  ⟨connection_cache_single_attempt.1 _ 9 _ 7 rfl,
   (connection_cache_single_attempt.2.1 _ 9 _ 3 rfl rfl).1,
   (connection_cache_single_attempt.2.1 _ 9 _ 3 rfl rfl).2⟩

/-- Claim C3: when the awaited attempt fails, the call rethrows that
error and leaves the cache exactly in the empty state (promise cleared,
no connection); a subsequent call then initiates a fresh attempt and,
when that attempt succeeds, caches and returns the new handle. -/
theorem connect_failure_resets_cache (s : Cache) (fresh : Nat)
    (outcome : Nat → Except String Nat) (e : String)
    (hconn : s.conn = none)
    (hfail : outcome (s.promise.getD fresh) = Except.error e) :
    ((connectDB s fresh outcome).result = Except.error e ∧
      (connectDB s fresh outcome).state = { conn := none, promise := none }) ∧
    (∀ (outcome2 : Nat → Except String Nat) (fresh2 h : Nat),
      outcome2 fresh2 = Except.ok h →
      (connectDB (connectDB s fresh outcome).state fresh2 outcome2).result
          = Except.ok h ∧
      (connectDB (connectDB s fresh outcome).state fresh2 outcome2).state
          = { conn := some h, promise := some fresh2 } ∧
      (connectDB (connectDB s fresh outcome).state fresh2 outcome2).started
          = some fresh2) := by
  have hfirst : connectDB s fresh outcome
      = { result := Except.error e, state := { conn := none, promise := none },
          started := if s.promise.isSome then none else some fresh,
          awaited := some (s.promise.getD fresh) } := by
    simp [connectDB, hconn, hfail]
  refine ⟨by simp [hfirst], ?_⟩
  intro outcome2 fresh2 h hok
  rw [hfirst]
  simp [connectDB, hok]

/-- Concrete instance of `connect_failure_resets_cache`: a failing
attempt 3 empties the cache and rethrows, and the retry initiates
attempt 5, succeeds with handle 42 and caches it. -/
theorem connect_failure_resets_cache_witness :
    ((connectDB { conn := none, promise := some 3 } 0 (fun _ => Except.error "boom")).result
        = Except.error "boom" ∧
      (connectDB { conn := none, promise := some 3 } 0 (fun _ => Except.error "boom")).state
        = { conn := none, promise := none }) ∧
    (connectDB (connectDB { conn := none, promise := some 3 } 0
          (fun _ => Except.error "boom")).state 5 (fun _ => Except.ok 42)).result
        = Except.ok 42 ∧
    (connectDB (connectDB { conn := none, promise := some 3 } 0
          (fun _ => Except.error "boom")).state 5 (fun _ => Except.ok 42)).state
        = { conn := some 42, promise := some 5 } ∧
    (connectDB (connectDB { conn := none, promise := some 3 } 0
          (fun _ => Except.error "boom")).state 5 (fun _ => Except.ok 42)).started
        = some 5 :=
  ⟨(connect_failure_resets_cache { conn := none, promise := some 3 } 0
      (fun _ => Except.error "boom") "boom" rfl rfl).1,
   (connect_failure_resets_cache { conn := none, promise := some 3 } 0
      (fun _ => Except.error "boom") "boom" rfl rfl).2 _ 5 42 rfl⟩

/-- Claim C10: each of the list, fetch-one, form-data update and
delete handlers called without the `registered` cookie answers 401
without reaching `connectDB` and leaves the stored records
unchanged. -/
theorem handlers_unauthorized_without_cookie (store : Store) (jar : Jar)
    (id : Nat) (fullName email phone : String) (image : Option String)
    (upload : String → Except String (String × String))
    (destroy : String → Except String Unit)
    (h : cookiesGet jar "registered" = none) :
    usersGET store jar
      = { status := 401, store := store, dbConnected := false, body := [] } ∧
    userGETById store jar id
      = { status := 401, store := store, dbConnected := false, user := none } ∧
    usersPUTForm store jar id fullName email phone image upload destroy
      = { status := 401, store := store, dbConnected := false } ∧
    usersDELETEById store jar id destroy
      = { status := 401, store := store, dbConnected := false } := by
  refine ⟨?_, ?_, ?_, ?_⟩ <;>
    simp [usersGET, userGETById, usersPUTForm, usersDELETEById, h]

/-- Concrete instance of `handlers_unauthorized_without_cookie`: with
an empty jar all four handlers answer 401, touch no database and keep
the store as-is. -/
theorem handlers_unauthorized_without_cookie_witness :
    usersGET [annUser] []
      = { status := 401, store := [annUser], dbConnected := false, body := [] } ∧
    userGETById [annUser] [] 1
      = { status := 401, store := [annUser], dbConnected := false, user := none } ∧
    usersPUTForm [annUser] [] 1 "Zed" "z@z.io" "0000000000" none
        (fun _ => Except.ok ("u", "p")) (fun _ => Except.ok ())
      = { status := 401, store := [annUser], dbConnected := false } ∧
    usersDELETEById [annUser] [] 1 (fun _ => Except.ok ())
      = { status := 401, store := [annUser], dbConnected := false } :=
  handlers_unauthorized_without_cookie [annUser] [] 1 "Zed" "z@z.io" "0000000000"
    none (fun _ => Except.ok ("u", "p")) (fun _ => Except.ok ()) rfl

/-- Counterexample to claim C7 as stated: the delete handler on a
record whose image-host delete fails answers 500 and the user record
is NOT removed from the store — the image removal is not best-effort,
it aborts the record deletion. -/
theorem delete_best_effort_counterexample :
    usersDELETEById [annUser] [("registered", "true")] 1
        (fun _ => Except.error "host down")
      = { status := 500, store := [annUser], dbConnected := true } ∧
    findById [annUser] 1 = some annUser := by
  constructor <;> rfl

/-- Claim C7 (amended): in the delete handler the image-host delete is
attempted before the record deletion and its failure is fatal: when
the record has an image handle and the image-host delete throws, the
handler answers 500 and the store is unchanged; only when the image
delete succeeds, or the record has no image handle, is the record
removed (status 200). -/
theorem delete_image_failure_is_fatal (store : Store) (jar : Jar) (id : Nat)
    (destroy : String → Except String Unit) (u : UserRec) (v : String)
    (hcookie : cookiesGet jar "registered" = some v)
    (huser : findById store id = some u) :
    ((u.imagePublicId ≠ "" ∧ ∃ e, destroy u.imagePublicId = Except.error e) →
      usersDELETEById store jar id destroy
        = { status := 500, store := store, dbConnected := true }) ∧
    ((u.imagePublicId = "" ∨ destroy u.imagePublicId = Except.ok ()) →
      usersDELETEById store jar id destroy
        = { status := 200, store := store.filter (fun w => w.id != id),
            dbConnected := true }) := by
  constructor
  · rintro ⟨hpid, e, he⟩
    simp [usersDELETEById, hcookie, huser, hpid, he]
  · rintro (hpid | hok)
    · simp [usersDELETEById, hcookie, huser, hpid]
    · by_cases hpid : u.imagePublicId = "" <;>
        simp [usersDELETEById, hcookie, huser, hpid, hok]

/-- Concrete instance of `delete_image_failure_is_fatal`: a failing
image-host delete leaves Ann's record in place with status 500; a
succeeding one removes it with status 200. -/
theorem delete_image_failure_is_fatal_witness :
    usersDELETEById [annUser] [("registered", "true")] 1
        (fun _ => Except.error "down")
      = { status := 500, store := [annUser], dbConnected := true } ∧
    usersDELETEById [annUser] [("registered", "true")] 1 (fun _ => Except.ok ())
      = { status := 200, store := [], dbConnected := true } := by
  constructor
  · exact (delete_image_failure_is_fatal [annUser] [("registered", "true")] 1
      (fun _ => Except.error "down") annUser "true" rfl rfl).1
      ⟨by decide, "down", rfl⟩
  · have h := (delete_image_failure_is_fatal [annUser] [("registered", "true")] 1
      (fun _ => Except.ok ()) annUser "true" rfl rfl).2 (Or.inr rfl)
    simpa using h

theorem findOneByEmail_eq_some_of_mem (store : Store) (e : String)
    (h : ∃ u ∈ store, u.email = e) :
    ∃ w, findOneByEmail store e = some w := by
  induction store with
  | nil => obtain ⟨u, hu, _⟩ := h; cases hu
  | cons w ws ih =>
    by_cases hw : w.email = e
    · exact ⟨w, by simp [findOneByEmail, hw]⟩
    · obtain ⟨u, hu, hEq⟩ := h
      rcases List.mem_cons.mp hu with rfl | hu
      · exact absurd hEq hw
      · obtain ⟨w2, hw2⟩ := ih ⟨u, hu, hEq⟩
        exact ⟨w2, by simp [findOneByEmail, beq_iff_eq, hw, hw2]⟩

/-- Claim C6: a registration whose (trimmed, lowercased) email already
belongs to a stored user — emails compared case-insensitively, the
store holding lowercased emails as its schema guarantees — is rejected
with 400 before any image upload is attempted and before any record
mutation: the store, including the existing record, is unchanged. -/
theorem register_duplicate_email_rejected (store : Store) (form : RegisterForm)
    (upload : String → Except String (String × String)) (freshId now : Nat)
    (isProduction : Bool) (em : String)
    (hemail : form.email = some em)
    (hlower : ∀ u ∈ store, lowerStr u.email = u.email)
    (hdup : ∃ u ∈ store, lowerStr u.email = lowerStr (trimStr em)) :
    (usersPOST store form upload freshId now isProduction).status = 400 ∧
    (usersPOST store form upload freshId now isProduction).store = store ∧
    (usersPOST store form upload freshId now isProduction).uploadAttempted
      = false := by
  have hfind : ∃ w, findOneByEmail store (lowerStr (trimStr em)) = some w := by
    apply findOneByEmail_eq_some_of_mem
    obtain ⟨u, hu, hEq⟩ := hdup
    exact ⟨u, hu, by rw [← hlower u hu, hEq]⟩
  simp only [usersPOST, hemail, Option.getD_some]
  split
  · exact ⟨rfl, rfl, rfl⟩
  · split
    · exact ⟨rfl, rfl, rfl⟩
    · obtain ⟨w, hw⟩ := hfind
      rw [hw]
      exact ⟨rfl, rfl, rfl⟩

/-- Concrete instance of `register_duplicate_email_rejected`: Bob
registering with `Ann@Example.COM` while `ann@example.com` is stored
is rejected with 400, the store untouched, no upload attempted. -/
theorem register_duplicate_email_rejected_witness :
    (usersPOST [annUser]
        { fullName := some "Bob", email := some "Ann@Example.COM",
          phone := some "0123456789", image := some "img" }
        (fun _ => Except.ok ("u", "p")) 2 9 false).status = 400 ∧
    (usersPOST [annUser]
        { fullName := some "Bob", email := some "Ann@Example.COM",
          phone := some "0123456789", image := some "img" }
        (fun _ => Except.ok ("u", "p")) 2 9 false).store = [annUser] ∧
    (usersPOST [annUser]
        { fullName := some "Bob", email := some "Ann@Example.COM",
          phone := some "0123456789", image := some "img" }
        (fun _ => Except.ok ("u", "p")) 2 9 false).uploadAttempted = false :=
  register_duplicate_email_rejected [annUser]
    { fullName := some "Bob", email := some "Ann@Example.COM",
      phone := some "0123456789", image := some "img" }
    (fun _ => Except.ok ("u", "p")) 2 9 false "Ann@Example.COM" rfl
    (by decide) ⟨annUser, by decide, by decide⟩

theorem findById_some_id (store : Store) (id : Nat) (u : UserRec)
    (h : findById store id = some u) : u.id = id := by
  induction store with
  | nil => simp [findById] at h
  | cons w ws ih =>
    by_cases hw : w.id = id
    · have hwu : w = u := by simpa [findById, beq_iff_eq, hw] using h
      rw [← hwu]; exact hw
    · exact ih (by simpa [findById, beq_iff_eq, hw] using h)

theorem findById_updateById (store : Store) (id : Nat) (u2 : UserRec)
    (hid : u2.id = id) :
    (findById store id).isSome = true →
      findById (updateById store id u2) id = some u2 := by
  induction store with
  | nil => intro hsome; simp [findById] at hsome
  | cons w ws ih =>
    intro hsome
    by_cases h : w.id = id
    · simp [findById, updateById, beq_iff_eq, h, hid]
    · have htail : (findById ws id).isSome = true := by
        simpa [findById, beq_iff_eq, h] using hsome
      simpa [findById, updateById, beq_iff_eq, h] using ih htail

/-- Counterexample to claim C9 as stated: the form-data update does
not store the email exactly as received — the store schema lowercases
it.  Submitting `JOHN@EXAMPLE.COM` for Ann's record succeeds
(status 200) but stores `john@example.com`. -/
theorem putform_stores_normalized_email_counterexample :
    (usersPUTForm [annUser] [("registered", "true")] 1
        "Ann" "JOHN@EXAMPLE.COM" "0123456789" none
        (fun _ => Except.ok ("u", "p")) (fun _ => Except.ok ())).status = 200 ∧
    (findById (usersPUTForm [annUser] [("registered", "true")] 1
        "Ann" "JOHN@EXAMPLE.COM" "0123456789" none
        (fun _ => Except.ok ("u", "p")) (fun _ => Except.ok ())).store 1).map
          UserRec.email
      = some "john@example.com" ∧
    "john@example.com" ≠ "JOHN@EXAMPLE.COM" := by
  refine ⟨rfl, rfl, by decide⟩

/-- Claim C9 (amended): the form-data update applies no
registration-schema validation and no handler-level email-uniqueness
check: for EVERY submitted strings — malformed emails included — on an
existing record, provided no other record's email collides at the
store's unique index, the update succeeds and stores `fullName` and
`phone` as received and the email normalized (lowercased and trimmed)
by the store schema. -/
theorem putform_no_validation (store : Store) (jar : Jar) (id : Nat)
    (fullName email phone : String)
    (upload : String → Except String (String × String))
    (destroy : String → Except String Unit)
    (u : UserRec) (v : String)
    (hcookie : cookiesGet jar "registered" = some v)
    (huser : findById store id = some u)
    (hnodup : ∀ w ∈ store, w.id ≠ id → w.email ≠ schemaEmail email) :
    (usersPUTForm store jar id fullName email phone none upload destroy).status
      = 200 ∧
    findById
        (usersPUTForm store jar id fullName email phone none upload destroy).store
        id
      = some { u with
               fullName := fullName
               email := schemaEmail email
               phone := phone } := by
  have hany : store.any (fun w => w.id != id && w.email == schemaEmail email)
      = false := by
    rw [List.any_eq_false]
    intro w hw
    simp only [Bool.and_eq_true, bne_iff_ne, beq_iff_eq, not_and]
    intro hne
    exact hnodup w hw hne
  have hid : u.id = id := findById_some_id store id u huser
  have hres : usersPUTForm store jar id fullName email phone none upload destroy
      = { status := 200
          store := updateById store id
            { u with
              fullName := fullName
              email := schemaEmail email
              phone := phone
              imageUrl := u.imageUrl
              imagePublicId := u.imagePublicId }
          dbConnected := true } := by
    simp [usersPUTForm, hcookie, huser, hany]
  rw [hres]
  refine ⟨rfl, ?_⟩
  exact findById_updateById store id _ hid (by rw [huser]; rfl)

/-- Concrete instance of `putform_no_validation`: submitting the
malformed email `NOT AN EMAIL@` (rejected by every email-format
check) for Ann's record succeeds and stores it lowercased. -/
theorem putform_no_validation_witness :
    (usersPUTForm [annUser] [("registered", "true")] 1
        "Zed" "NOT-AN-EMAIL" "12" none
        (fun _ => Except.ok ("u", "p")) (fun _ => Except.ok ())).status = 200 ∧
    findById (usersPUTForm [annUser] [("registered", "true")] 1
        "Zed" "NOT-AN-EMAIL" "12" none
        (fun _ => Except.ok ("u", "p")) (fun _ => Except.ok ())).store 1
      = some { annUser with
               fullName := "Zed"
               email := "not-an-email"
               phone := "12" } :=
  putform_no_validation [annUser] [("registered", "true")] 1
    "Zed" "NOT-AN-EMAIL" "12"
    (fun _ => Except.ok ("u", "p")) (fun _ => Except.ok ())
    annUser "true" rfl rfl (by decide)

end UserMgmt
